import Mathlib

/-!
Verification development for the Monte Carlo simulator module
(`monte_carlo_simulator.py`).

The development shallowly embeds the module's core classes — `Variable`,
`Modelo`, `Simulador`, `Resultados` and the two analysis tools of
`AplicacionMonteCarlo` (`_actualizar_evaluador`, `_actualizar_estimador`) —
as executable Lean definitions, and proves or refutes the specification's
claims about them.

Modelling conventions:

* Python floats are modelled as exact rationals (`ℚ`).  Values whose exact
  magnitude the model does not track (results of the irrational library
  functions `np.sqrt`, `np.exp`, ... on generic inputs) are modelled by the
  constructor `Val.opaco`; IEEE NaN is `Val.nan`.
* Python exceptions are modelled by `PyError`; `PyError.texto` is `str(e)`.
* `np.random` and `scipy` draws are abstracted by a `Muestreador` parameter:
  the model keeps the exact control flow of `Variable.generar_muestra`
  (which dictionary keys are read, in which order, and the arguments passed
  to the random source) and leaves only the drawn values themselves to the
  parameter.
* The formula language is modelled for the arithmetic fragment the module's
  formulas use: ASCII identifiers, integer and decimal literals, `+ - * /`,
  unary minus, parentheses, calls, and attribute access.  Strings outside
  this fragment make `parseFormula` return `none`; theorems about evaluation
  are stated under a `parseFormula _ = some _` hypothesis.
-/

set_option maxRecDepth 4096

deriving instance DecidableEq for Except

/-- Python runtime errors, as far as this module can raise or catch them.
`valueError` covers both the module's own `raise ValueError(...)` calls and
the wrapped evaluation errors; the remaining constructors model the built-in
exception classes that can escape `eval` or a dictionary lookup. -/
inductive PyError where
| valueError (msg : String)
| keyError (clave : String)
| nameError (nombre : String)
| typeError (msg : String)
| zeroDivisionError (msg : String)
| attributeError (msg : String)
| syntaxError (msg : String)
deriving DecidableEq, Repr

/-- Python `str(e)` for each modelled exception. -/
def PyError.texto : PyError → String
| .valueError m => m
| .keyError k => "\x27" ++ k ++ "\x27"
| .nameError n => "name \x27" ++ n ++ "\x27 is not defined"
| .typeError m => m
| .zeroDivisionError m => m
| .attributeError m => m
| .syntaxError m => m

/-- The ten whitelisted functions placed in the evaluation namespace
(`Modelo.evaluar`, lines 121-131, and `_actualizar_estimador`, lines 656-666). -/
inductive WFun where
| fsqrt | fexp | flog | fsin | fcos | ftan | fabs | fmin | fmax | fpow
deriving DecidableEq, Repr

/-- A Python value that can appear while evaluating a formula: an exact
float (`num`), IEEE NaN (`nan`), one of the whitelisted function objects
(`func`), or a host object / float whose exact value the model does not
track (`opaco`). -/
inductive Val where
| num (q : ℚ)
| nan
| func (f : WFun)
| opaco (etiqueta : String)
deriving DecidableEq, Repr

/-- Bool test for `Except.ok`. -/
def esOk {ε α : Type} : Except ε α → Bool
| .ok _ => true
| .error _ => false

/-- Python `dict[k]` on a float-valued dictionary: raises `KeyError k`
when the key is absent (`self.parametros['media']` and friends). -/
def dget (d : List (String × ℚ)) (k : String) : Except PyError ℚ :=
  match d.lookup k with
  | some v => .ok v
  | none => .error (.keyError k)

/-- A random variable: name, distribution kind and parameter dictionary
(class `Variable`, lines 16-77). -/
structure Variable where
  nombre : String
  distribucion : String
  parametros : List (String × ℚ)
deriving DecidableEq, Repr

/-- The six supported distribution kinds (line 35). -/
def distribuciones_validas : List String :=
["normal", "uniforme", "triangular", "lognormal", "binomial", "poisson"]

/-- `Variable._validar_parametros` (lines 33-37): the only check performed
is membership of the kind in `distribuciones_validas`; the parameter
dictionary itself is not inspected. -/
def Variable.validarParametros (v : Variable) : Except PyError Unit :=
  if v.distribucion ∈ distribuciones_validas then .ok ()
  else .error (.valueError ("Distribución \x27" ++ v.distribucion ++
    "\x27 no soportada. Use: [\x27normal\x27, \x27uniforme\x27, \x27triangular\x27, \x27lognormal\x27, \x27binomial\x27, \x27poisson\x27]"))

/-- `Variable.__init__` (lines 21-31): stores the three fields and runs
`_validar_parametros`. -/
def Variable.crear (nombre distribucion : String) (parametros : List (String × ℚ)) :
    Except PyError Variable :=
  match Variable.validarParametros ⟨nombre, distribucion, parametros⟩ with
  | .ok _ => .ok ⟨nombre, distribucion, parametros⟩
  | .error e => .error e

/-- Abstraction of `np.random`: given the distribution kind, the parameter
values in the order the code passes them, and the requested count, returns
the drawn values.  `np.random` always returns exactly `n` values; theorems
that need this carry it as a hypothesis. -/
def Muestreador : Type := String → List ℚ → Nat → List ℚ

/-- `Variable.generar_muestra` (lines 39-77): reads the required parameters
from the dictionary (each read can raise `KeyError`) and calls the random
source.  The `if/elif` chain has no `else`, so an unrecognised kind returns
Python `None`, modelled as `.ok none`. -/
def Variable.generar_muestra (v : Variable) (n : Nat) (azar : Muestreador) :
    Except PyError (Option (List ℚ)) :=
  if v.distribucion = "normal" then do
    let mu ← dget v.parametros "media"
    let sigma ← dget v.parametros "desviacion"
    pure (some (azar "normal" [mu, sigma] n))
  else if v.distribucion = "uniforme" then do
    let minimo ← dget v.parametros "minimo"
    let maximo ← dget v.parametros "maximo"
    pure (some (azar "uniforme" [minimo, maximo] n))
  else if v.distribucion = "triangular" then do
    let minimo ← dget v.parametros "minimo"
    let moda ← dget v.parametros "moda"
    let maximo ← dget v.parametros "maximo"
    pure (some (azar "triangular" [minimo, moda, maximo] n))
  else if v.distribucion = "lognormal" then do
    let mu ← dget v.parametros "media_log"
    let sigma ← dget v.parametros "desviacion_log"
    pure (some (azar "lognormal" [mu, sigma] n))
  else if v.distribucion = "binomial" then do
    let ensayos ← dget v.parametros "n"
    let p ← dget v.parametros "p"
    pure (some (azar "binomial" [ensayos, p] n))
  else if v.distribucion = "poisson" then do
    let lam ← dget v.parametros "lambda"
    pure (some (azar "poisson" [lam] n))
  else pure none

/-- ASCII digit test (`\d` of the regex, at ASCII). -/
def esDigito (c : Char) : Bool := '0' ≤ c && c ≤ '9'

/-- ASCII letter test (`[a-zA-Z]` of the regex).  The module's formulas are
ASCII identifiers over `+ - * / ( )`, so word characters are modelled at
ASCII. -/
def esLetra (c : Char) : Bool := ('a' ≤ c && c ≤ 'z') || ('A' ≤ c && c ≤ 'Z')

/-- Word character (`\w` of the regex, at ASCII). -/
def esCarPalabra (c : Char) : Bool := esLetra c || esDigito c || c == '_'

/-- Maximal runs of word characters of a character list, left to right.
The accumulator holds the current run reversed. -/
def corridasPalabra : List Char → List Char → List String
| [], acc => if acc.isEmpty then [] else [String.mk acc.reverse]
| c :: resto, acc =>
  if esCarPalabra c then corridasPalabra resto (c :: acc)
  else if acc.isEmpty then corridasPalabra resto []
  else String.mk acc.reverse :: corridasPalabra resto []

/-- `re.findall(r'\b[a-zA-Z_]\w*\b', formula)` (line 99): a match of that
pattern is exactly a maximal run of word characters whose first character
is a letter or underscore (no word boundary can fall inside a run, so a
run starting with a digit contributes no match). -/
def extraerIdentificadores (s : String) : List String :=
  (corridasPalabra s.toList []).filter (fun w =>
    match w.toList with
    | c :: _ => esLetra c || c == '_'
    | [] => false)

/-- The fixed whitelist `funciones_permitidas` (line 102). -/
def funciones_permitidas : List String :=
["sqrt", "exp", "log", "sin", "cos", "tan", "abs", "min", "max", "pow"]

/-- The message of the `ValueError` raised at line 108. -/
def mensajeNoDefinida (n : String) : String :=
  "Variable \x27" ++ n ++ "\x27 en la fórmula no está definida"

/-- The validation loop of lines 106-108: raise on the first identifier
that is not a key of the variables dictionary. -/
def buscarNoDefinida : List String → List String → Except PyError Unit
| [], _ => .ok ()
| n :: resto, claves =>
  if claves.contains n then buscarNoDefinida resto claves
  else .error (.valueError (mensajeNoDefinida n))

/-- `Modelo._validar_formula` (lines 95-108): extract identifiers, drop the
whitelist, and require every remaining identifier to be a declared variable
name. -/
def validarFormula (formula : String) (vars : List (String × Variable)) :
    Except PyError Unit :=
  buscarNoDefinida
    ((extraerIdentificadores formula).filter (fun n => !(funciones_permitidas.contains n)))
    (vars.map Prod.fst)

/-- A model: formula string plus the insertion-ordered variables dictionary
(class `Modelo`, lines 80-138). -/
structure Modelo where
  formula : String
  vars : List (String × Variable)
deriving DecidableEq, Repr

/-- `Modelo.__init__` (lines 85-93): stores the fields and runs
`_validar_formula`. -/
def Modelo.crear (formula : String) (vars : List (String × Variable)) :
    Except PyError Modelo :=
  match validarFormula formula vars with
  | .ok _ => .ok ⟨formula, vars⟩
  | .error e => .error e

/-- Tokens of the arithmetic expression fragment: numbers, identifiers,
`+ - * / ( ) , .` -/
inductive Tok where
| tnum (q : ℚ)
| tid (s : String)
| tmas
| tmen
| tpor
| tdiv
| tpar1
| tpar2
| tcoma
| tpunto
deriving DecidableEq, Repr

/-- Numeric value of a digit run (most significant first). -/
def valorDigitos (ds : List Char) : Nat :=
  ds.foldl (fun a c => a * 10 + (c.toNat - 48)) 0

/-- Value of an integer or decimal literal: integer part and fraction part. -/
def valorLiteral (enteros fracc : List Char) : ℚ :=
  if fracc.isEmpty then ((valorDigitos enteros : ℕ) : ℚ)
  else ((valorDigitos enteros : ℕ) : ℚ) +
    ((valorDigitos fracc : ℕ) : ℚ) / ((10 : ℚ) ^ fracc.length)

/-- Tokenizer for the fragment (fuel-driven; one character consumed per
step, so `length + 1` fuel suffices).  Any character outside the fragment
makes the whole tokenization fail. -/
def tokenizar : Nat → List Char → Option (List Tok)
| 0, _ => none
| _ + 1, [] => some []
| fuel + 1, c :: resto =>
  if c == ' ' then tokenizar fuel resto
  else if esDigito c then
    let enteros := (c :: resto).takeWhile esDigito
    let resto1 := (c :: resto).dropWhile esDigito
    match resto1 with
    | '.' :: resto2 =>
      let fracc := resto2.takeWhile esDigito
      let resto3 := resto2.dropWhile esDigito
      (tokenizar fuel resto3).map (fun ts => Tok.tnum (valorLiteral enteros fracc) :: ts)
    | _ => (tokenizar fuel resto1).map (fun ts => Tok.tnum (valorLiteral enteros []) :: ts)
  else if esLetra c || c == '_' then
    let pal := (c :: resto).takeWhile esCarPalabra
    let resto1 := (c :: resto).dropWhile esCarPalabra
    (tokenizar fuel resto1).map (fun ts => Tok.tid (String.mk pal) :: ts)
  else if c == '+' then (tokenizar fuel resto).map (fun ts => Tok.tmas :: ts)
  else if c == '-' then (tokenizar fuel resto).map (fun ts => Tok.tmen :: ts)
  else if c == '*' then (tokenizar fuel resto).map (fun ts => Tok.tpor :: ts)
  else if c == '/' then (tokenizar fuel resto).map (fun ts => Tok.tdiv :: ts)
  else if c == '(' then (tokenizar fuel resto).map (fun ts => Tok.tpar1 :: ts)
  else if c == ')' then (tokenizar fuel resto).map (fun ts => Tok.tpar2 :: ts)
  else if c == ',' then (tokenizar fuel resto).map (fun ts => Tok.tcoma :: ts)
  else if c == '.' then (tokenizar fuel resto).map (fun ts => Tok.tpunto :: ts)
  else none

/-- Abstract syntax of the Python expression fragment the formulas use. -/
inductive Expresion where
| lit (q : ℚ)
| nombre (s : String)
| atributo (e : Expresion) (campo : String)
| negacion (e : Expresion)
| suma (a b : Expresion)
| resta (a b : Expresion)
| producto (a b : Expresion)
| cociente (a b : Expresion)
| llamada (f : Expresion) (args : List Expresion)
deriving Repr

mutual

/-- Additive level: `termino (('+' | '-') termino)*`. -/
def parseAditiva : Nat → List Tok → Option (Expresion × List Tok)
| 0, _ => none
| fuel + 1, ts => do
  let (e, ts1) ← parseTermino fuel ts
  parseAditivaSigue fuel e ts1

/-- Left-associative continuation of the additive level. -/
def parseAditivaSigue : Nat → Expresion → List Tok → Option (Expresion × List Tok)
| 0, _, _ => none
| fuel + 1, e, .tmas :: resto => do
  let (d, ts1) ← parseTermino fuel resto
  parseAditivaSigue fuel (.suma e d) ts1
| fuel + 1, e, .tmen :: resto => do
  let (d, ts1) ← parseTermino fuel resto
  parseAditivaSigue fuel (.resta e d) ts1
| _ + 1, e, ts => some (e, ts)

/-- Multiplicative level: `unario (('*' | '/') unario)*`. -/
def parseTermino : Nat → List Tok → Option (Expresion × List Tok)
| 0, _ => none
| fuel + 1, ts => do
  let (e, ts1) ← parseUnario fuel ts
  parseTerminoSigue fuel e ts1

/-- Left-associative continuation of the multiplicative level. -/
def parseTerminoSigue : Nat → Expresion → List Tok → Option (Expresion × List Tok)
| 0, _, _ => none
| fuel + 1, e, .tpor :: resto => do
  let (d, ts1) ← parseUnario fuel resto
  parseTerminoSigue fuel (.producto e d) ts1
| fuel + 1, e, .tdiv :: resto => do
  let (d, ts1) ← parseUnario fuel resto
  parseTerminoSigue fuel (.cociente e d) ts1
| _ + 1, e, ts => some (e, ts)

/-- Unary minus. -/
def parseUnario : Nat → List Tok → Option (Expresion × List Tok)
| 0, _ => none
| fuel + 1, .tmen :: resto => do
  let (e, ts1) ← parseUnario fuel resto
  some (.negacion e, ts1)
| fuel + 1, ts => do
  let (a, ts1) ← parseAtomo fuel ts
  parseSufijos fuel a ts1

/-- Trailers: calls `f(a, b)` and attribute access `e.campo`. -/
def parseSufijos : Nat → Expresion → List Tok → Option (Expresion × List Tok)
| 0, _, _ => none
| fuel + 1, e, .tpar1 :: .tpar2 :: resto => parseSufijos fuel (.llamada e []) resto
| fuel + 1, e, .tpar1 :: resto => do
  let (args, ts1) ← parseArgumentos fuel resto
  match ts1 with
  | .tpar2 :: resto2 => parseSufijos fuel (.llamada e args) resto2
  | _ => none
| fuel + 1, e, .tpunto :: .tid campo :: resto => parseSufijos fuel (.atributo e campo) resto
| _ + 1, e, ts => some (e, ts)

/-- Comma-separated argument list (at least one argument). -/
def parseArgumentos : Nat → List Tok → Option (List Expresion × List Tok)
| 0, _ => none
| fuel + 1, ts => do
  let (e, ts1) ← parseAditiva fuel ts
  match ts1 with
  | .tcoma :: resto => do
    let (mas, ts2) ← parseArgumentos fuel resto
    some (e :: mas, ts2)
  | _ => some ([e], ts1)

/-- Atoms: literals, names, parenthesised expressions. -/
def parseAtomo : Nat → List Tok → Option (Expresion × List Tok)
| 0, _ => none
| _ + 1, .tnum q :: resto => some (.lit q, resto)
| _ + 1, .tid s :: resto => some (.nombre s, resto)
| fuel + 1, .tpar1 :: resto => do
  let (e, ts1) ← parseAditiva fuel resto
  match ts1 with
  | .tpar2 :: ts2 => some (e, ts2)
  | _ => none
| _, _ => none

end

/-- Parse a formula string into the fragment's syntax, requiring all input
to be consumed (models the parse `eval` performs before evaluating). -/
def parseFormula (s : String) : Option Expresion := do
  let toks ← tokenizar (s.toList.length + 1) s.toList
  let (e, resto) ← parseAditiva (10 * (toks.length + 1)) toks
  if resto.isEmpty then some e else none

/-- An evaluation namespace: Python name → value. -/
def Espacio : Type := String → Option Val

/-- The whitelist entries of the namespace literal (lines 122-131 and
656-666): each of the ten names bound to its function object. -/
def funcionBase : String → Option Val
| "sqrt" => some (.func .fsqrt)
| "exp" => some (.func .fexp)
| "log" => some (.func .flog)
| "sin" => some (.func .fsin)
| "cos" => some (.func .fcos)
| "tan" => some (.func .ftan)
| "abs" => some (.func .fabs)
| "min" => some (.func .fmin)
| "max" => some (.func .fmax)
| "pow" => some (.func .fpow)
| _ => none

/-- The namespace literal `{'sqrt': np.sqrt, ..., 'pow': pow, **valores}`:
entries of `valores` are written after the function entries, so a variable
value overrides a function bound to the same name. -/
def espacioDeNombres (valores : List (String × Val)) : Espacio :=
  fun k =>
    match valores.lookup k with
    | some v => some v
    | none => funcionBase k

/-- `np.sqrt` at rational precision: negative input gives NaN (with a
`RuntimeWarning`, not an exception); other inputs are floats whose exact
value the model does not track. -/
def npSqrt (q : ℚ) : Val := if q < 0 then .nan else .opaco "sqrt"

/-- `np.log` at rational precision: negative input gives NaN (warning, not
an exception); `log(0)` is `-inf`, other values untracked. -/
def npLog (q : ℚ) : Val := if q < 0 then .nan else .opaco "log"

/-- Python `float ** float` via the whitelisted `pow`: exact for integer
exponents, `ZeroDivisionError` for `0.0 ** negative`, untracked (complex or
irrational) otherwise. -/
def potencia (a b : ℚ) : Except PyError Val :=
  if b.den = 1 then
    if 0 ≤ b.num then .ok (.num (a ^ b.num.toNat))
    else if a = 0 then
      .error (.zeroDivisionError "0.0 cannot be raised to a negative power")
    else .ok (.num (a ^ b.num))
  else .ok (.opaco "pow")

/-- Is the value a function object? -/
def Val.esFuncion : Val → Bool
| .func _ => true
| _ => false

/-- Numeric views of an argument list (`none` when any argument is not an
exactly-tracked float). -/
def valoresNum : List Val → Option (List ℚ) :=
  List.mapM (fun v => match v with | Val.num q => some q | _ => none)

/-- Application of a whitelisted function object to evaluated arguments,
per the Python/NumPy semantics of each: the NumPy unary functions propagate
NaN and never raise on domain errors, `abs` is the builtin, `min`/`max`
need at least two arguments (a single float is not iterable), `pow` is the
builtin on two numbers. -/
def aplicarFuncion : WFun → List Val → Except PyError Val
| .fsqrt, [.num q] => .ok (npSqrt q)
| .fsqrt, [.nan] => .ok .nan
| .fsqrt, [.opaco _] => .ok (.opaco "sqrt")
| .fsqrt, [.func _] => .error (.typeError "bad operand type for np.sqrt")
| .fsqrt, _ => .error (.typeError "np.sqrt takes one argument")
| .flog, [.num q] => .ok (npLog q)
| .flog, [.nan] => .ok .nan
| .flog, [.opaco _] => .ok (.opaco "log")
| .flog, [.func _] => .error (.typeError "bad operand type for np.log")
| .flog, _ => .error (.typeError "np.log takes one argument")
| .fexp, [.nan] => .ok .nan
| .fexp, [.num _] => .ok (.opaco "exp")
| .fexp, [.opaco _] => .ok (.opaco "exp")
| .fexp, [.func _] => .error (.typeError "bad operand type for np.exp")
| .fexp, _ => .error (.typeError "np.exp takes one argument")
| .fsin, [.nan] => .ok .nan
| .fsin, [.num _] => .ok (.opaco "sin")
| .fsin, [.opaco _] => .ok (.opaco "sin")
| .fsin, [.func _] => .error (.typeError "bad operand type for np.sin")
| .fsin, _ => .error (.typeError "np.sin takes one argument")
| .fcos, [.nan] => .ok .nan
| .fcos, [.num _] => .ok (.opaco "cos")
| .fcos, [.opaco _] => .ok (.opaco "cos")
| .fcos, [.func _] => .error (.typeError "bad operand type for np.cos")
| .fcos, _ => .error (.typeError "np.cos takes one argument")
| .ftan, [.nan] => .ok .nan
| .ftan, [.num _] => .ok (.opaco "tan")
| .ftan, [.opaco _] => .ok (.opaco "tan")
| .ftan, [.func _] => .error (.typeError "bad operand type for np.tan")
| .ftan, _ => .error (.typeError "np.tan takes one argument")
| .fabs, [.num q] => .ok (.num |q|)
| .fabs, [.nan] => .ok .nan
| .fabs, [.opaco _] => .ok (.opaco "abs")
| .fabs, [.func _] => .error (.typeError "bad operand type for abs()")
| .fabs, _ => .error (.typeError "abs() takes exactly one argument")
| .fmin, args =>
  match args with
  | _ :: _ :: _ =>
    match valoresNum args with
    | some (q :: qs) => .ok (.num (qs.foldl min q))
    | _ =>
      if args.any Val.esFuncion then
        .error (.typeError "\x27<\x27 not supported between instances")
      else .ok (.opaco "min")
  | _ => .error (.typeError "\x27float\x27 object is not iterable")
| .fmax, args =>
  match args with
  | _ :: _ :: _ =>
    match valoresNum args with
    | some (q :: qs) => .ok (.num (qs.foldl max q))
    | _ =>
      if args.any Val.esFuncion then
        .error (.typeError "\x27>\x27 not supported between instances")
      else .ok (.opaco "max")
  | _ => .error (.typeError "\x27float\x27 object is not iterable")
| .fpow, [.num a, .num b] => potencia a b
| .fpow, [.nan, .num _] => .ok .nan
| .fpow, [.num _, .nan] => .ok .nan
| .fpow, [.nan, .nan] => .ok .nan
| .fpow, [.opaco _, _] => .ok (.opaco "pow")
| .fpow, [_, .opaco _] => .ok (.opaco "pow")
| .fpow, [_, _] => .error (.typeError "unsupported operand type(s) for ** or pow()")
| .fpow, _ => .error (.typeError "pow expected 2 arguments")

/-- Python `+ - *` on two float-like values: exact on tracked floats,
`TypeError` when a function object is an operand, NaN-propagating
otherwise. -/
def operarAritmetica (op : ℚ → ℚ → ℚ) (a b : Val) : Except PyError Val :=
  if a.esFuncion || b.esFuncion then
    .error (.typeError "unsupported operand type(s)")
  else
    match a, b with
    | .num x, .num y => .ok (.num (op x y))
    | .nan, _ => .ok .nan
    | _, .nan => .ok .nan
    | _, _ => .ok (.opaco "aritmetica")

/-- Python float division: a zero denominator raises `ZeroDivisionError`
whatever the numerator; otherwise exact on tracked floats. -/
def dividir (a b : Val) : Except PyError Val :=
  if a.esFuncion || b.esFuncion then
    .error (.typeError "unsupported operand type(s) for /")
  else
    match b with
    | .num y =>
      if y = 0 then .error (.zeroDivisionError "float division by zero")
      else
        match a with
        | .num x => .ok (.num (x / y))
        | .nan => .ok .nan
        | _ => .ok (.opaco "aritmetica")
    | .nan => .ok .nan
    | _ => .ok (.opaco "aritmetica")

/-- Python unary minus on a float-like value. -/
def negar : Val → Except PyError Val
| .num q => .ok (.num (-q))
| .nan => .ok .nan
| .opaco t => .ok (.opaco t)
| .func _ => .error (.typeError "bad operand type for unary -")

/-- Python attribute access on an evaluated value: a read from the host
object model, outside the evaluation namespace.  Among the attributes that
exist on floats the model tracks `__class__` (the escape the development
exhibits); any other attribute is reported as an `AttributeError`. -/
def leerAtributo (v : Val) (campo : String) : Except PyError Val :=
  match v, campo with
  | .num _, "__class__" => .ok (.opaco "<class \x27float\x27>")
  | _, _ => .error (.attributeError ("object has no attribute \x27" ++ campo ++ "\x27"))

mutual

/-- Evaluation of the expression fragment under a namespace, following
Python's order (left operand first, then right; function before arguments,
arguments left to right).  The second component collects the reads the
evaluation performs from the host environment — that is, from anything
other than the namespace: attribute accesses.  A pure arithmetic
evaluation returns an empty read list. -/
def evalExpresion (ns : Espacio) : Expresion → Except PyError (Val × List String)
| .lit q => .ok (.num q, [])
| .nombre s =>
  match ns s with
  | some v => .ok (v, [])
  | none => .error (.nameError s)
| .atributo e campo => do
  let (v, r) ← evalExpresion ns e
  let w ← leerAtributo v campo
  pure (w, r ++ ["atributo \x27" ++ campo ++ "\x27 fuera del espacio de nombres"])
| .negacion e => do
  let (v, r) ← evalExpresion ns e
  let w ← negar v
  pure (w, r)
| .suma a b => do
  let (va, ra) ← evalExpresion ns a
  let (vb, rb) ← evalExpresion ns b
  let w ← operarAritmetica (· + ·) va vb
  pure (w, ra ++ rb)
| .resta a b => do
  let (va, ra) ← evalExpresion ns a
  let (vb, rb) ← evalExpresion ns b
  let w ← operarAritmetica (· - ·) va vb
  pure (w, ra ++ rb)
| .producto a b => do
  let (va, ra) ← evalExpresion ns a
  let (vb, rb) ← evalExpresion ns b
  let w ← operarAritmetica (· * ·) va vb
  pure (w, ra ++ rb)
| .cociente a b => do
  let (va, ra) ← evalExpresion ns a
  let (vb, rb) ← evalExpresion ns b
  let w ← dividir va vb
  pure (w, ra ++ rb)
| .llamada f args => do
  let (vf, rf) ← evalExpresion ns f
  let (vas, ras) ← evalArgumentos ns args
  match vf with
  | .func wf => do
    let w ← aplicarFuncion wf vas
    pure (w, rf ++ ras)
  | .num _ => .error (.typeError "\x27float\x27 object is not callable")
  | .nan => .error (.typeError "\x27float\x27 object is not callable")
  | .opaco _ => .error (.typeError "object is not callable")

/-- Evaluation of an argument list, left to right. -/
def evalArgumentos (ns : Espacio) : List Expresion → Except PyError (List Val × List String)
| [] => .ok ([], [])
| e :: resto => do
  let (v, r) ← evalExpresion ns e
  let (vs, rs) ← evalArgumentos ns resto
  pure (v :: vs, r ++ rs)

end

/-- `Modelo.evaluar` (lines 110-138) with the host-environment reads kept:
build the namespace, let `eval` parse and evaluate the formula, and wrap
any exception in `ValueError(f"Error al evaluar la fórmula: {e}")`
(line 138) — which also catches a `SyntaxError` from `eval` itself. -/
def evaluarConLecturas (formula : String) (valores : List (String × Val)) :
    Except PyError (Val × List String) :=
  match parseFormula formula with
  | none =>
    .error (.valueError "Error al evaluar la fórmula: invalid syntax (<string>, line 1)")
  | some e =>
    match evalExpresion (espacioDeNombres valores) e with
    | .ok vr => .ok vr
    | .error err => .error (.valueError ("Error al evaluar la fórmula: " ++ err.texto))

/-- `Modelo.evaluar` as the module's callers see it: the value only. -/
def evaluarFormula (formula : String) (valores : List (String × Val)) :
    Except PyError Val :=
  (evaluarConLecturas formula valores).map Prod.fst

/-- Method view of `Modelo.evaluar`. -/
def Modelo.evaluar (m : Modelo) (valores : List (String × Val)) : Except PyError Val :=
  evaluarFormula m.formula valores

/-- The simulation engine (class `Simulador`, lines 141-176): a model and a
trial count. -/
structure Simulador where
  modelo : Modelo
  n_simulaciones : Nat
deriving Repr

/-- Results container (class `Resultados`, lines 179-208): the raw outcome
array `np.array(resultados_simulaciones)`. -/
structure Resultados where
  datos : List Val
deriving DecidableEq, Repr

/-- The sampling loop of `Simulador.ejecutar` (lines 165-167): one sample
array per variable, in dictionary order. -/
def generarMuestras (vars : List (String × Variable)) (n : Nat) (azar : Muestreador) :
    Except PyError (List (String × Option (List ℚ))) :=
  vars.mapM (fun p => (p.2.generar_muestra n azar).map (fun l => (p.1, l)))

/-- The per-trial value dictionary `{nombre: muestras_variables[nombre][i]}`
(lines 171-172).  Indexing Python `None` (an unvalidated kind's sample)
raises `TypeError`.  `np.random` guarantees each sample array has length
`n`, so for `i < n` the `getD` never falls back to its default. -/
def valoresDeEnsayo (muestras : List (String × Option (List ℚ))) (i : Nat) :
    Except PyError (List (String × Val)) :=
  muestras.mapM (fun p =>
    match p.2 with
    | some l => .ok (p.1, Val.num (l.getD i 0))
    | none => .error (.typeError "\x27NoneType\x27 object is not subscriptable"))

/-- One trial: build the value dictionary for index `i` and evaluate the
formula on it (lines 171-173). -/
def evaluarEnsayo (m : Modelo) (muestras : List (String × Option (List ℚ))) (i : Nat) :
    Except PyError Val := do
  let valores ← valoresDeEnsayo muestras i
  m.evaluar valores

/-- The evaluation loop of `Simulador.ejecutar` (lines 170-174): trials
`0, 1, ..., n-1` in order, appending each outcome; the first exception
aborts the loop and propagates. -/
def ejecutarEnsayos (m : Modelo) (muestras : List (String × Option (List ℚ))) :
    Nat → Except PyError (List Val)
| 0 => .ok []
| n + 1 => do
  let previos ← ejecutarEnsayos m muestras n
  let v ← evaluarEnsayo m muestras n
  pure (previos ++ [v])

/-- `Simulador.ejecutar` (lines 155-176): sample every variable, run the
trial loop, and wrap the outcomes in `Resultados`. -/
def Simulador.ejecutar (s : Simulador) (azar : Muestreador) : Except PyError Resultados := do
  let muestras ← generarMuestras s.modelo.vars s.n_simulaciones azar
  let resultados ← ejecutarEnsayos s.modelo muestras s.n_simulaciones
  pure ⟨resultados⟩

/-- Numeric view of an outcome array (`none` if some outcome is not an
exactly-tracked float). -/
def asNums : List Val → Option (List ℚ)
| [] => some []
| .num q :: resto => (asNums resto).map (fun l => q :: l)
| _ :: _ => none

/-- Ascending sort, as NumPy's order statistics use. -/
def np_sort (l : List ℚ) : List ℚ := l.insertionSort (· ≤ ·)

/-- `np.mean`: sum over count. -/
def np_mean (l : List ℚ) : ℚ := l.sum / l.length

/-- `np.var` with the default `ddof=0`: mean of squared deviations. -/
def np_var (l : List ℚ) : ℚ := np_mean (l.map (fun x => (x - np_mean l) ^ 2))

/-- `np.std` with the default `ddof=0`: square root of the population
variance.  The square root is real, hence this noncomputable field. -/
noncomputable def np_std (l : List ℚ) : ℝ := Real.sqrt (np_var l)

/-- The `k`-th ascending order statistic, for an integer index. -/
def indiceOrden (l : List ℚ) (k : ℤ) : ℚ := (np_sort l).getD k.toNat 0

/-- `np.min`. -/
def np_min (l : List ℚ) : ℚ := (np_sort l).headD 0

/-- `np.max`. -/
def np_max (l : List ℚ) : ℚ := (np_sort l).getLastD 0

/-- `np.percentile` with the default linear interpolation: fractional index
`h = (n-1)·q/100`, result `a[⌊h⌋] + (h-⌊h⌋)·(a[⌊h⌋+1] - a[⌊h⌋])` on the
sorted data. -/
def np_percentile (l : List ℚ) (q : ℚ) : ℚ :=
  let h : ℚ := ((l.length : ℚ) - 1) * q / 100
  let i : ℤ := ⌊h⌋
  indiceOrden l i + (h - i) * (indiceOrden l (i + 1) - indiceOrden l i)

/-- `np.median`: mean of the two middle order statistics (they coincide for
odd length). -/
def np_median (l : List ℚ) : ℚ :=
  (indiceOrden l (((l.length : ℤ) - 1) / 2) + indiceOrden l (l.length / 2)) / 2

/-- The statistics dictionary returned by `Resultados.estadisticas`
(lines 198-208): exactly these nine keys. -/
structure Estadisticas where
  media : ℚ
  mediana : ℚ
  desviacion : ℝ
  minimo : ℚ
  maximo : ℚ
  percentil_2_5 : ℚ
  percentil_25 : ℚ
  percentil_75 : ℚ
  percentil_97_5 : ℚ

/-- `Resultados.estadisticas` (lines 191-208), for numeric outcome arrays
(NaN propagation through the NumPy aggregations is outside the model, as is
the empty-array warning path). -/
noncomputable def Resultados.estadisticas (r : Resultados) : Option Estadisticas :=
  (asNums r.datos).map (fun l =>
    { media := np_mean l
      mediana := np_median l
      desviacion := np_std l
      minimo := np_min l
      maximo := np_max l
      percentil_2_5 := np_percentile l (5/2)
      percentil_25 := np_percentile l 25
      percentil_75 := np_percentile l 75
      percentil_97_5 := np_percentile l (195/2) })

/-- `scipy.stats.percentileofscore` with its default `kind='rank'`:
`(left + right + (1 if right > left else 0)) · 50 / n` where `left` counts
strictly smaller outcomes and `right` counts smaller-or-equal ones.  (The
empty-data case divides by zero and is outside the model; theorems require
nonempty data.) -/
def percentileofscore (a : List ℚ) (score : ℚ) : ℚ :=
  let izquierda : ℚ := a.countP (fun x => decide (x < score))
  let derecha : ℚ := a.countP (fun x => decide (x ≤ score))
  (izquierda + derecha + (if izquierda < derecha then 1 else 0)) * 50 / a.length

/-- The goal evaluator `_actualizar_evaluador` (lines 597-628), reduced to
its computation: `percentil = stats.percentileofscore(datos, y)` and
`probabilidad = 100 - percentil`, for numeric outcome arrays. -/
def Resultados.evaluarMeta (r : Resultados) (objetivo : ℚ) : Option (ℚ × ℚ) :=
  (asNums r.datos).map (fun l =>
    let percentil := percentileofscore l objetivo
    (percentil, 100 - percentil))

/-- `stats.percentileofscore(self.resultados.datos, valor_y)` for a value
the evaluation produced: exact for tracked floats, untracked otherwise. -/
def percentilDeValor (r : Resultados) (y : Val) : Val :=
  match asNums r.datos, y with
  | some l, .num q => .num (percentileofscore l q)
  | _, _ => .opaco "percentileofscore"

/-- The point estimator `_actualizar_estimador` (lines 630-691), reduced to
its computation: take the FIRST variable of the dictionary (line 653),
build the namespace with only that name bound to `x` (lines 656-668),
evaluate the formula with a bare `eval` (line 670 — exceptions are NOT
wrapped here), and compute the percent-rank of the result (line 673). -/
def estimadorDeResultados (vars : List (String × Variable)) (formula : String)
    (r : Resultados) (x : ℚ) : Except PyError (Val × Val) :=
  match vars with
  | [] => .error (.valueError "No hay variables definidas")
  | (nombreVar, _) :: _ =>
    match parseFormula formula with
    | none => .error (.syntaxError "invalid syntax (<string>, line 1)")
    | some e =>
      match evalExpresion (espacioDeNombres [(nombreVar, .num x)]) e with
      | .error err => .error err
      | .ok (y, _) => .ok (y, percentilDeValor r y)

mutual

/-- The names an expression references (the `Name` nodes of the syntax
tree; attribute fields are not name lookups). -/
def nombresDe : Expresion → List String
| .lit _ => []
| .nombre s => [s]
| .atributo e _ => nombresDe e
| .negacion e => nombresDe e
| .suma a b => nombresDe a ++ nombresDe b
| .resta a b => nombresDe a ++ nombresDe b
| .producto a b => nombresDe a ++ nombresDe b
| .cociente a b => nombresDe a ++ nombresDe b
| .llamada f args => nombresDe f ++ nombresDeLista args

/-- The names referenced by a list of argument expressions. -/
def nombresDeLista : List Expresion → List String
| [] => []
| e :: resto => nombresDe e ++ nombresDeLista resto

end

/-- Following the specification's words (§4.4): the mean/"weak" percent
rank, `100 · (count(outcomes < target) + 0.5 · count(outcomes == target)) / N`. -/
def rangoMedioSpec (l : List ℚ) (t : ℚ) : ℚ :=
  100 * ((l.countP (fun x => decide (x < t)) : ℚ) +
    (1 / 2) * (l.countP (fun x => decide (x = t)) : ℚ)) / l.length

/-- Following the specification's words (§4.4): the mean of the outcomes,
the sum divided by N. -/
def specMedia (l : List ℚ) : ℚ := l.sum / l.length

/-- Following the specification's words (§4.4): the population variance —
the sum of squared deviations from the mean divided by N, not N−1. -/
def specVarianzaPoblacional (l : List ℚ) : ℚ :=
  (l.map (fun x => (x - specMedia l) ^ 2)).sum / l.length

/-- Following the specification's words (§4.4): the percentile by linear
interpolation between order statistics — fractional rank `h = (n-1)·q/100`,
interpolating between the order statistics at `⌊h⌋` and `⌈h⌉`. -/
def specPercentilLineal (l : List ℚ) (q : ℚ) : ℚ :=
  let h : ℚ := ((l.length : ℚ) - 1) * q / 100
  indiceOrden l ⌊h⌋ + (h - ⌊h⌋) * (indiceOrden l ⌈h⌉ - indiceOrden l ⌊h⌋)

/-- The payload of an `Except.ok`, with a default for the error case. -/
def valorO {ε α : Type} : Except ε α → α → α
| .ok a, _ => a
| .error _, d => d

/-- A concrete variable `x ~ uniforme(0, 10)`, used in concrete instances. -/
def varX : Variable := ⟨"x", "uniforme", [("minimo", 0), ("maximo", 10)]⟩

/-- A concrete variable `y ~ normal(0, 1)`, used in concrete instances. -/
def varY : Variable := ⟨"y", "normal", [("media", 0), ("desviacion", 1)]⟩

/-- A concrete variable whose NAME is the whitelisted `max`. -/
def varMax : Variable := ⟨"max", "uniforme", [("minimo", 0), ("maximo", 1)]⟩

/-- A concrete variable whose NAME is the attribute `__class__`. -/
def varClase : Variable := ⟨"__class__", "normal", [("media", 0), ("desviacion", 1)]⟩

/-- The specification's deterministic test variable: `normal(5, 0)`. -/
def varDet : Variable := ⟨"x", "normal", [("media", 5), ("desviacion", 0)]⟩

/-- The specification's deterministic test model: formula `x*2` over `varDet`. -/
def modeloDet : Modelo := ⟨"x*2", [("x", varDet)]⟩

/-- A degenerate random source that always draws 5 (what `np.random.normal(5, 0, n)`
returns). -/
def azarCinco : Muestreador := fun _ _ n => List.replicate n 5

/-! ## Helper lemmas -/

theorem exceptBind_ok {ε α β : Type} {x : Except ε α} {f : α → Except ε β} {b : β}
    (h : x >>= f = .ok b) : ∃ a, x = .ok a ∧ f a = .ok b := by
  cases x with
  | ok a => exact ⟨a, rfl, h⟩
  | error e =>
    exact absurd h (by simp [Bind.bind, Except.bind])

theorem exceptBind_error_izq {ε α β : Type} {x : Except ε α} {f : α → Except ε β} {e : ε}
    (h : x = .error e) : x >>= f = .error e := by
  subst h
  rfl

theorem buscarNoDefinida_eq_find (l claves : List String) :
    buscarNoDefinida l claves =
      match l.find? (fun n => !(claves.contains n)) with
      | some n => .error (.valueError (mensajeNoDefinida n))
      | none => .ok () := by
  induction l with
  | nil => rfl
  | cons n resto ih =>
    simp only [buscarNoDefinida, List.find?]
    cases h : claves.contains n with
    | true => simp only [h, if_true, Bool.not_true, ih]
    | false => simp [h]

theorem mensajeNoDefinida_inyectiva {a b : String}
    (h : mensajeNoDefinida a = mensajeNoDefinida b) : a = b := by
  have hd := congrArg String.data h
  simp only [mensajeNoDefinida, String.data_append] at hd
  have hd2 := List.append_cancel_right hd
  have hd3 := List.append_cancel_left hd2
  cases a; cases b
  exact congrArg String.mk hd3

theorem asNums_map_num (qs : List ℚ) : asNums (qs.map Val.num) = some qs := by
  induction qs with
  | nil => rfl
  | cons q resto ih => simp [asNums, ih]

mutual

theorem evalExpresion_ok_nombres (ns : Espacio) :
    ∀ (e : Expresion) (vr : Val × List String), evalExpresion ns e = .ok vr →
      ∀ s ∈ nombresDe e, (ns s).isSome
| .lit _, vr, h, s, hs => by simp [nombresDe] at hs
| .nombre t, vr, h, s, hs => by
  simp only [nombresDe, List.mem_singleton] at hs
  subst hs
  simp only [evalExpresion] at h
  cases hns : ns s with
  | some v => simp
  | none => rw [hns] at h; exact Except.noConfusion h
| .atributo e₁ campo, vr, h, s, hs => by
  simp only [nombresDe] at hs
  simp only [evalExpresion] at h
  obtain ⟨⟨v, r⟩, h₁, -⟩ := exceptBind_ok h
  exact evalExpresion_ok_nombres ns e₁ (v, r) h₁ s hs
| .negacion e₁, vr, h, s, hs => by
  simp only [nombresDe] at hs
  simp only [evalExpresion] at h
  obtain ⟨⟨v, r⟩, h₁, -⟩ := exceptBind_ok h
  exact evalExpresion_ok_nombres ns e₁ (v, r) h₁ s hs
| .suma a b, vr, h, s, hs => by
  simp only [nombresDe, List.mem_append] at hs
  simp only [evalExpresion] at h
  obtain ⟨⟨va, ra⟩, h₁, h₂⟩ := exceptBind_ok h
  obtain ⟨⟨vb, rb⟩, h₃, -⟩ := exceptBind_ok h₂
  rcases hs with hs | hs
  · exact evalExpresion_ok_nombres ns a (va, ra) h₁ s hs
  · exact evalExpresion_ok_nombres ns b (vb, rb) h₃ s hs
| .resta a b, vr, h, s, hs => by
  simp only [nombresDe, List.mem_append] at hs
  simp only [evalExpresion] at h
  obtain ⟨⟨va, ra⟩, h₁, h₂⟩ := exceptBind_ok h
  obtain ⟨⟨vb, rb⟩, h₃, -⟩ := exceptBind_ok h₂
  rcases hs with hs | hs
  · exact evalExpresion_ok_nombres ns a (va, ra) h₁ s hs
  · exact evalExpresion_ok_nombres ns b (vb, rb) h₃ s hs
| .producto a b, vr, h, s, hs => by
  simp only [nombresDe, List.mem_append] at hs
  simp only [evalExpresion] at h
  obtain ⟨⟨va, ra⟩, h₁, h₂⟩ := exceptBind_ok h
  obtain ⟨⟨vb, rb⟩, h₃, -⟩ := exceptBind_ok h₂
  rcases hs with hs | hs
  · exact evalExpresion_ok_nombres ns a (va, ra) h₁ s hs
  · exact evalExpresion_ok_nombres ns b (vb, rb) h₃ s hs
| .cociente a b, vr, h, s, hs => by
  simp only [nombresDe, List.mem_append] at hs
  simp only [evalExpresion] at h
  obtain ⟨⟨va, ra⟩, h₁, h₂⟩ := exceptBind_ok h
  obtain ⟨⟨vb, rb⟩, h₃, -⟩ := exceptBind_ok h₂
  rcases hs with hs | hs
  · exact evalExpresion_ok_nombres ns a (va, ra) h₁ s hs
  · exact evalExpresion_ok_nombres ns b (vb, rb) h₃ s hs
| .llamada f args, vr, h, s, hs => by
  simp only [nombresDe, List.mem_append] at hs
  simp only [evalExpresion] at h
  obtain ⟨⟨vf, rf⟩, h₁, h₂⟩ := exceptBind_ok h
  obtain ⟨⟨vas, ras⟩, h₃, -⟩ := exceptBind_ok h₂
  rcases hs with hs | hs
  · exact evalExpresion_ok_nombres ns f (vf, rf) h₁ s hs
  · exact evalArgumentos_ok_nombres ns args (vas, ras) h₃ s hs

theorem evalArgumentos_ok_nombres (ns : Espacio) :
    ∀ (es : List Expresion) (vr : List Val × List String), evalArgumentos ns es = .ok vr →
      ∀ s ∈ nombresDeLista es, (ns s).isSome
| [], vr, h, s, hs => by simp [nombresDeLista] at hs
| e :: resto, vr, h, s, hs => by
  simp only [nombresDeLista, List.mem_append] at hs
  simp only [evalArgumentos] at h
  obtain ⟨⟨v, r⟩, h₁, h₂⟩ := exceptBind_ok h
  obtain ⟨⟨vs, rs⟩, h₃, -⟩ := exceptBind_ok h₂
  rcases hs with hs | hs
  · exact evalExpresion_ok_nombres ns e (v, r) h₁ s hs
  · exact evalArgumentos_ok_nombres ns resto (vs, rs) h₃ s hs

end

theorem ejecutarEnsayos_ok (m : Modelo) (muestras : List (String × Option (List ℚ)))
    (n : Nat) (hok : ∀ i, i < n → esOk (evaluarEnsayo m muestras i) = true) :
    ejecutarEnsayos m muestras n =
      .ok ((List.range n).map (fun i => valorO (evaluarEnsayo m muestras i) Val.nan)) := by
  induction n with
  | zero => rfl
  | succ k ih =>
    have ihk := ih (fun i hi => hok i (Nat.lt_succ_of_lt hi))
    cases heval : evaluarEnsayo m muestras k with
    | error e =>
      have := hok k (Nat.lt_succ_self k)
      rw [heval] at this
      exact absurd this (by simp [esOk])
    | ok v =>
      simp only [ejecutarEnsayos, ihk, heval, List.range_succ, List.map_append,
        List.map_cons, List.map_nil, valorO]
      rfl

theorem ejecutarEnsayos_error (m : Modelo) (muestras : List (String × Option (List ℚ)))
    (n j : Nat) (e : PyError) (hj : j < n)
    (he : evaluarEnsayo m muestras j = .error e)
    (hprev : ∀ i, i < j → esOk (evaluarEnsayo m muestras i) = true) :
    ejecutarEnsayos m muestras n = .error e := by
  induction n with
  | zero => omega
  | succ k ih =>
    rcases Nat.lt_succ_iff_lt_or_eq.mp hj with hjk | hjk
    · have hk := ih hjk
      simp only [ejecutarEnsayos, hk]
      rfl
    · subst hjk
      have hk := ejecutarEnsayos_ok m muestras j hprev
      simp only [ejecutarEnsayos, hk, he]
      rfl

theorem np_percentile_eq_spec (l : List ℚ) (q : ℚ) :
    np_percentile l q = specPercentilLineal l q := by
  unfold np_percentile specPercentilLineal
  set h : ℚ := ((l.length : ℚ) - 1) * q / 100 with hh
  by_cases hint : h = (⌊h⌋ : ℚ)
  · have hz : h - (⌊h⌋ : ℚ) = 0 := by rw [← hint]; ring
    simp [hz]
  · have h2 : (⌊h⌋ : ℚ) < h := lt_of_le_of_ne (Int.floor_le h) (fun hfe => hint hfe.symm)
    have h3 : h ≤ (⌈h⌉ : ℚ) := Int.le_ceil h
    have h5 : ⌊h⌋ < ⌈h⌉ := by exact_mod_cast lt_of_lt_of_le h2 h3
    have hceil : (⌈h⌉ : ℤ) = ⌊h⌋ + 1 := by
      have h1 := Int.ceil_le_floor_add_one h
      omega
    simp only [hceil]

theorem countP_le_split (l : List ℚ) (t : ℚ) :
    l.countP (fun x => decide (x ≤ t)) =
      l.countP (fun x => decide (x < t)) + l.countP (fun x => decide (x = t)) := by
  induction l with
  | nil => rfl
  | cons a resto ih =>
    rcases lt_trichotomy a t with h | h | h
    · have h1 : decide (a ≤ t) = true := by simp [le_of_lt h]
      have h2 : decide (a < t) = true := by simp [h]
      have h3 : decide (a = t) = false := by simp [ne_of_lt h]
      simp [List.countP_cons, h1, h2, h3, ih]
      omega
    · subst h
      have h1 : decide (a ≤ a) = true := by simp
      have h2 : decide (a < a) = false := by simp
      have h3 : decide (a = a) = true := by simp
      simp [List.countP_cons, h1, h2, h3, ih]
      omega
    · have h1 : decide (a ≤ t) = false := by simp [not_le.mpr h]
      have h2 : decide (a < t) = false := by simp [not_lt.mpr (le_of_lt h)]
      have h3 : decide (a = t) = false := by simp [(ne_of_gt h)]
      simp [List.countP_cons, h1, h2, h3, ih]

theorem funcionBase_none {n : String} (h : n ∉ funciones_permitidas) :
    funcionBase n = none := by
  unfold funcionBase
  split <;> simp_all [funciones_permitidas]

/-! ## The claims -/

/-- C8: for every formula string and variables mapping, model validation
extracts the identifiers, removes the fixed ten-name whitelist, and
succeeds exactly when every remaining identifier is a key of the variables
mapping; otherwise it raises the `ValueError` naming the FIRST offending
identifier; and `Modelo` construction performs exactly this check (so the
check happens at construction, not at evaluation). -/
theorem C8_validacion_de_formula (formula : String) (vars : List (String × Variable)) :
    (validarFormula formula vars =
      match ((extraerIdentificadores formula).filter
          (fun n => !(funciones_permitidas.contains n))).find?
          (fun n => !((vars.map Prod.fst).contains n)) with
       | some n => .error (.valueError (mensajeNoDefinida n))
       | none => .ok ())
    ∧ (validarFormula formula vars = .ok () ↔
        ∀ n ∈ (extraerIdentificadores formula).filter
          (fun n => !(funciones_permitidas.contains n)), n ∈ vars.map Prod.fst)
    ∧ Modelo.crear formula vars =
        (match validarFormula formula vars with
         | .ok _ => .ok ⟨formula, vars⟩
         | .error e => .error e) := by
  have hc := buscarNoDefinida_eq_find
    ((extraerIdentificadores formula).filter (fun n => !(funciones_permitidas.contains n)))
    (vars.map Prod.fst)
  refine ⟨hc, ?_, rfl⟩
  rw [show validarFormula formula vars = _ from hc]
  cases hf : ((extraerIdentificadores formula).filter
      (fun n => !(funciones_permitidas.contains n))).find?
      (fun n => !((vars.map Prod.fst).contains n)) with
  | some n =>
    simp only [hf]
    constructor
    · intro habs
      exact absurd habs (by simp)
    · intro hall
      have hmem := List.mem_of_find?_eq_some hf
      have hp := List.find?_some hf
      simp only [Bool.not_eq_true'] at hp
      have hm : (vars.map Prod.fst).contains n = true := List.elem_iff.mpr (hall n hmem)
      rw [hp] at hm
      exact Bool.noConfusion hm
  | none =>
    simp only [hf]
    constructor
    · intro _ n hn
      have := List.find?_eq_none.mp hf n hn
      simpa using this
    · intro _
      trivial

/-- C10: a declared variable sharing a whitelisted function name is never
reported as undefined at construction (the whitelist is stripped before
the declared-variable check), and in the evaluation namespace the value
supplied for that name overrides the function entry, so the identifier
denotes the variable's value, not the math function. -/
theorem C10_sombra_de_funciones (formula : String) (vars : List (String × Variable))
    (w : String) (hw : w ∈ funciones_permitidas) :
    (∀ e, validarFormula formula vars = .error e →
      e ≠ .valueError (mensajeNoDefinida w))
    ∧ (∀ (valores : List (String × Val)) (q : ℚ), valores.lookup w = some (.num q) →
        evalExpresion (espacioDeNombres valores) (.nombre w) = .ok (.num q, [])) := by
  constructor
  · intro e he
    rw [show validarFormula formula vars = _ from buscarNoDefinida_eq_find _ _] at he
    cases hf : ((extraerIdentificadores formula).filter
        (fun n => !(funciones_permitidas.contains n))).find?
        (fun n => !((vars.map Prod.fst).contains n)) with
    | none =>
      rw [hf] at he
      exact Except.noConfusion he
    | some n =>
      rw [hf] at he
      have hmem := List.mem_of_find?_eq_some hf
      have hnp : ¬(funciones_permitidas.contains n = true) := by
        have := List.of_mem_filter hmem
        simpa using this
      injection he with he2
      intro hcontra
      rw [← he2] at hcontra
      injection hcontra with hmsg
      have := mensajeNoDefinida_inyectiva hmsg
      subst this
      exact hnp (List.elem_iff.mpr hw)
  · intro valores q hq
    simp only [evalExpresion, espacioDeNombres, hq]

/-- C1: the claim that evaluation is sandboxed fails on the code.  The
formula `x.__class__` (with `x` and `__class__` both declared, so model
construction accepts it) evaluates successfully in Python's `eval` to the
host object `<class 'float'>` by READING an attribute of the host float
type — a read outside the passed-in values and the whitelisted functions —
and the value `2.0` supplied for the name `__class__` is ignored.  The
evaluator is Python's general-purpose `eval` (line 136), not a constrained
expression evaluator. -/
theorem C1_eval_lee_el_anfitrion :
    Modelo.crear "x.__class__" [("x", varX), ("__class__", varClase)] =
      .ok ⟨"x.__class__", [("x", varX), ("__class__", varClase)]⟩
    ∧ evaluarConLecturas "x.__class__" [("x", .num 1), ("__class__", .num 2)] =
        .ok (.opaco "<class \x27float\x27>",
          ["atributo \x27__class__\x27 fuera del espacio de nombres"])
    ∧ (Val.opaco "<class \x27float\x27>" ≠ .num 2) :=
  ⟨rfl, rfl, by decide⟩

/-- C2 counterexample: a `Variable` of kind `normal` with an EMPTY
parameter dictionary is accepted at construction, and it is sampling that
fails — with `KeyError('media')` — contradicting both directions the claim
adds beyond the kind check. -/
theorem C2_contraejemplo :
    Variable.crear "x" "normal" [] = .ok ⟨"x", "normal", []⟩ ∧
    Variable.generar_muestra ⟨"x", "normal", []⟩ 3 azarCinco = .error (.keyError "media") :=
  ⟨rfl, rfl⟩

/-- C2 as amended: construction fails (with the `ValueError` of
`_validar_parametros`) exactly when the kind is not one of the six
supported kinds; parameter presence is NOT checked at construction, and a
missing required parameter surfaces during sampling as a `KeyError` (shown
for `normal`/`media`, the first key that branch reads). -/
theorem C2_enmendada (nombre distribucion : String) (parametros : List (String × ℚ)) :
    (esOk (Variable.crear nombre distribucion parametros) = true ↔
      distribucion ∈ distribuciones_validas)
    ∧ (∀ (n : Nat) (azar : Muestreador), distribucion = "normal" →
        parametros.lookup "media" = none →
        Variable.generar_muestra ⟨nombre, distribucion, parametros⟩ n azar =
          .error (.keyError "media")) := by
  constructor
  · unfold Variable.crear Variable.validarParametros
    by_cases h : distribucion ∈ distribuciones_validas
    · simp [h, esOk]
    · simp [h, esOk]
  · intro n azar hdist hlk
    subst hdist
    simp [Variable.generar_muestra, dget, hlk, Bind.bind, Except.bind]

/-- C2 witness. -/
theorem C2_testigo :
    esOk (Variable.crear "x" "normal" []) = true ∧
    Variable.generar_muestra ⟨"x", "normal", []⟩ 1 azarCinco = .error (.keyError "media") :=
  ⟨(C2_enmendada "x" "normal" []).1.mpr (by decide),
   (C2_enmendada "x" "normal" []).2 1 azarCinco rfl rfl⟩

/-- C3 counterexample: the engine run with `n = 0` does not fail at all —
it returns a `Resultados` with an empty outcome array. -/
theorem C3_contraejemplo :
    Simulador.ejecutar ⟨modeloDet, 0⟩ azarCinco = .ok ⟨[]⟩ ∧
    ∀ e, Simulador.ejecutar ⟨modeloDet, 0⟩ azarCinco ≠ .error e := by
  refine ⟨rfl, fun e h => ?_⟩
  rw [show Simulador.ejecutar ⟨modeloDet, 0⟩ azarCinco = .ok ⟨[]⟩ from rfl] at h
  exact Except.noConfusion h

/-- C3 as amended: the engine itself performs no trial-count validation —
`Simulador.ejecutar` with `n = 0` returns `Resultados` over an empty
outcome sequence instead of raising; the `n ≥ 1` check lives only in the
GUI layer (lines 528-534), outside the engine. -/
theorem C3_enmendada (m : Modelo) (azar : Muestreador)
    (muestras : List (String × Option (List ℚ)))
    (hM : generarMuestras m.vars 0 azar = .ok muestras) :
    Simulador.ejecutar ⟨m, 0⟩ azar = .ok ⟨[]⟩ := by
  unfold Simulador.ejecutar
  simp [hM, ejecutarEnsayos, Bind.bind, Except.bind]
  rfl

/-- C3 witness. -/
theorem C3_testigo : Simulador.ejecutar ⟨modeloDet, 0⟩ azarCinco = .ok ⟨[]⟩ :=
  C3_enmendada modeloDet azarCinco [("x", some [])] rfl

/-- C4 counterexample: the wrapped evaluation error's message is exactly
`"Error al evaluar la fórmula: "` followed by the underlying error's own
text — it does not contain the formula (not a substring) and contains no
digit at all, hence names no offending value; and a sqrt domain error does
not fail at all: `np.sqrt` on a negative input returns NaN. -/
theorem C4_contraejemplo :
    evaluarFormula "x/y" [("x", .num 1), ("y", .num 0)] =
      .error (.valueError "Error al evaluar la fórmula: float division by zero")
    ∧ (¬ ("x/y".toList <:+: ("Error al evaluar la fórmula: float division by zero").toList))
    ∧ (∀ c ∈ ("Error al evaluar la fórmula: float division by zero").toList,
        esDigito c = false)
    ∧ evaluarFormula "sqrt(x)" [("x", .num (-1))] = .ok .nan :=
  ⟨rfl, by decide, by decide, rfl⟩

/-- C4 as amended: when the evaluation of a (parseable) formula raises, the
module fails with `ValueError` whose message is `"Error al evaluar la
fórmula: "` followed by the underlying exception's text, and nothing else —
in particular the message does not include the formula text or the
variable values (see the counterexample); `np.sqrt`/`np.log` on negative
input return NaN instead of raising. -/
theorem C4_enmendada (formula : String) (valores : List (String × Val))
    (e : Expresion) (err : PyError) (hp : parseFormula formula = some e)
    (he : evalExpresion (espacioDeNombres valores) e = .error err) :
    evaluarFormula formula valores =
      .error (.valueError ("Error al evaluar la fórmula: " ++ err.texto)) := by
  unfold evaluarFormula evaluarConLecturas
  rw [hp]
  dsimp only
  rw [he]
  rfl

/-- C4 witness. -/
theorem C4_testigo :
    evaluarFormula "x/y" [("x", .num 2), ("y", .num 0)] =
      .error (.valueError ("Error al evaluar la fórmula: " ++
        (PyError.zeroDivisionError "float division by zero").texto)) :=
  C4_enmendada "x/y" [("x", .num 2), ("y", .num 0)]
    (.cociente (.nombre "x") (.nombre "y")) (.zeroDivisionError "float division by zero")
    rfl rfl

/-- C5 counterexample: on outcomes `[1, 2, 3]` with target `2` (a tie),
the goal evaluator returns percentile `200/3 ≈ 66.67` — scipy's default
`kind='rank'` convention — while the claimed mean convention gives `50`. -/
theorem C5_contraejemplo :
    Resultados.evaluarMeta ⟨[.num 1, .num 2, .num 3]⟩ 2 = some (200/3, 100/3)
    ∧ rangoMedioSpec [1, 2, 3] 2 = 50
    ∧ (200/3 : ℚ) ≠ 50 := by
  refine ⟨?_, ?_, by norm_num⟩
  · norm_num [Resultados.evaluarMeta, asNums, percentileofscore, List.countP, List.countP.go]
  · norm_num [rangoMedioSpec, List.countP, List.countP.go]

/-- C5 as amended: the goal evaluator returns
`(percentileofscore outcomes t, 100 - percentileofscore outcomes t)` where
`percentileofscore` is scipy's `kind='rank'` convention
`(count(<) + count(≤) + (1 if present)) · 50 / N`; this agrees with the
claimed mean convention exactly when the target does not occur among the
outcomes, and the claimed edge cases do hold: a target strictly below all
outcomes gives percentile 0 / probability 100, strictly above gives
percentile 100 / probability 0. -/
theorem C5_enmendada (qs : List ℚ) (t : ℚ) (h : qs ≠ []) :
    Resultados.evaluarMeta ⟨qs.map Val.num⟩ t =
      some (percentileofscore qs t, 100 - percentileofscore qs t)
    ∧ (t ∉ qs → percentileofscore qs t = rangoMedioSpec qs t)
    ∧ ((∀ o ∈ qs, t < o) → percentileofscore qs t = 0 ∧ 100 - percentileofscore qs t = 100)
    ∧ ((∀ o ∈ qs, o < t) → percentileofscore qs t = 100 ∧ 100 - percentileofscore qs t = 0) := by
  have hn : (qs.length : ℚ) ≠ 0 := by
    have h1 := List.length_pos.mpr h
    exact Nat.cast_ne_zero.mpr (Nat.pos_iff_ne_zero.mp h1)
  refine ⟨?_, ?_, ?_, ?_⟩
  · simp [Resultados.evaluarMeta, asNums_map_num]
  · intro ht
    have h0 : qs.countP (fun x => decide (x = t)) = 0 :=
      List.countP_eq_zero.mpr (fun a ha => by
        simp only [decide_eq_true_eq]
        rintro rfl
        exact ht ha)
    have hs := countP_le_split qs t
    rw [h0, Nat.add_zero] at hs
    unfold percentileofscore rangoMedioSpec
    rw [hs, h0]
    simp only [Nat.cast_zero, lt_self_iff_false, if_false]
    field_simp
    ring
  · intro hlt
    have h1 : qs.countP (fun x => decide (x < t)) = 0 :=
      List.countP_eq_zero.mpr (fun a ha => by
        simp only [decide_eq_true_eq]
        exact not_lt.mpr (le_of_lt (hlt a ha)))
    have h2 : qs.countP (fun x => decide (x ≤ t)) = 0 :=
      List.countP_eq_zero.mpr (fun a ha => by
        simp only [decide_eq_true_eq]
        exact not_le.mpr (hlt a ha))
    unfold percentileofscore
    rw [h1, h2]
    norm_num
  · intro hgt
    have h1 : qs.countP (fun x => decide (x < t)) = qs.length :=
      List.countP_eq_length.mpr (fun a ha => by
        simp only [decide_eq_true_eq]
        exact hgt a ha)
    have h2 : qs.countP (fun x => decide (x ≤ t)) = qs.length :=
      List.countP_eq_length.mpr (fun a ha => by
        simp only [decide_eq_true_eq]
        exact le_of_lt (hgt a ha))
    unfold percentileofscore
    rw [h1, h2]
    simp only [lt_self_iff_false, if_false]
    constructor
    · field_simp
      ring
    · field_simp
      ring

/-- C5 witness. -/
theorem C5_testigo :
    Resultados.evaluarMeta ⟨[(1:ℚ), 3].map Val.num⟩ 2 =
      some (percentileofscore [1, 3] 2, 100 - percentileofscore [1, 3] 2)
    ∧ percentileofscore [1, 3] 2 = rangoMedioSpec [1, 3] 2 :=
  ⟨(C5_enmendada [1, 3] 2 (by decide)).1,
   (C5_enmendada [1, 3] 2 (by decide)).2.1 (by norm_num)⟩

/-- C6 counterexample: with variables inserted in the order `x`, `max` and
formula `x + max(1, 2)`, the formula references the declared variable
`max` (which is not the first variable), yet `estimate(5)` does NOT fail
with an undefined-variable error: the unsubstituted name `max` resolves to
the whitelisted builtin, and the call succeeds with `y = 7` and percentile
100 over outcomes `[0.0]`. -/
theorem C6_contraejemplo :
    estimadorDeResultados [("x", varX), ("max", varMax)] "x + max(1, 2)" ⟨[.num 0]⟩ 5 =
      .ok (.num 7, .num 100)
    ∧ parseFormula "x + max(1, 2)" =
        some (.suma (.nombre "x") (.llamada (.nombre "max") [.lit 1, .lit 2]))
    ∧ "max" ∈ nombresDe (.suma (.nombre "x") (.llamada (.nombre "max") [.lit 1, .lit 2]))
    ∧ "max" ∈ ([("x", varX), ("max", varMax)].map Prod.fst)
    ∧ "max" ≠ "x" := by
  refine ⟨?_, rfl, by decide, by decide, by decide⟩
  have h : estimadorDeResultados [("x", varX), ("max", varMax)] "x + max(1, 2)"
      ⟨[.num 0]⟩ 5 = .ok (.num (5 + 2), .num (percentileofscore [0] (5 + 2))) := rfl
  rw [h, show ((5:ℚ) + 2 = 7) from by norm_num,
    show percentileofscore [0] 7 = 100 from by
      norm_num [percentileofscore, List.countP, List.countP.go]]

/-- C6 as amended: the estimator substitutes `x` only for the first
variable of the dictionary; a reference to any OTHER declared variable
whose name is not one of the ten whitelisted function names makes the
call fail (with `NameError` — the taxonomy's `UndefinedVariableError` —
when the unresolved reference is reached before any other failure); a
declared variable whose name IS whitelisted resolves to the math function
instead, so such a formula can succeed (see the counterexample).  On
success the returned percentile is the percent-rank of the returned `y`
within the outcomes, by the same `percentileofscore` convention as the
goal evaluator. -/
theorem C6_enmendada (vars : List (String × Variable)) (formula : String)
    (r : Resultados) (x : ℚ) (v0 : String × Variable) (resto : List (String × Variable))
    (hv : vars = v0 :: resto) (e : Expresion) (hp : parseFormula formula = some e)
    (nm : String) (hnm : nm ∈ nombresDe e) (hwl : nm ∉ funciones_permitidas)
    (h0 : nm ≠ v0.1) :
    esOk (estimadorDeResultados vars formula r x) = false
    ∧ ∀ (vars' : List (String × Variable)) (formula' : String) (r' : Resultados)
        (x' : ℚ) (y p : Val),
        estimadorDeResultados vars' formula' r' x' = .ok (y, p) →
        p = percentilDeValor r' y := by
  constructor
  · subst hv
    obtain ⟨nv, vv⟩ := v0
    unfold estimadorDeResultados
    dsimp only
    rw [hp]
    dsimp only
    cases heval : evalExpresion (espacioDeNombres [(nv, .num x)]) e with
    | error err => rfl
    | ok vr =>
      exfalso
      have hsome := evalExpresion_ok_nombres _ e vr heval nm hnm
      have hns : espacioDeNombres [(nv, .num x)] nm = none := by
        unfold espacioDeNombres
        have hlk : ([(nv, Val.num x)].lookup nm) = none := by
          have hbeq : (nm == nv) = false := beq_eq_false_iff_ne.mpr h0
          simp [List.lookup, hbeq]
        rw [hlk]
        exact funcionBase_none hwl
      rw [hns] at hsome
      simp at hsome
  · intro vars' formula' r' x' y p hok
    unfold estimadorDeResultados at hok
    cases vars' with
    | nil => exact Except.noConfusion hok
    | cons v0' resto' =>
      obtain ⟨nv', vv'⟩ := v0'
      cases hp' : parseFormula formula' with
      | none =>
        rw [hp'] at hok
        exact Except.noConfusion hok
      | some e' =>
        rw [hp'] at hok
        dsimp only at hok
        cases he' : evalExpresion (espacioDeNombres [(nv', .num x')]) e' with
        | error err => rw [he'] at hok; exact Except.noConfusion hok
        | ok vr =>
          rw [he'] at hok
          obtain ⟨y', tr⟩ := vr
          injection hok with hok2
          injection hok2 with hy hpct
          subst hy
          exact hpct.symm

/-- C6 witness. -/
theorem C6_testigo :
    esOk (estimadorDeResultados [("x", varX), ("y", varY)] "x + y" ⟨[.num 0]⟩ 5) = false :=
  (C6_enmendada [("x", varX), ("y", varY)] "x + y" ⟨[.num 0]⟩ 5 ("x", varX) [("y", varY)]
    rfl (.suma (.nombre "x") (.nombre "y")) rfl "y" (by decide) (by decide) (by decide)).1

/-- C7: with the per-variable samples drawn, a run is all-or-nothing.  If
every trial evaluates, the run returns `Resultados` whose outcomes are
exactly the evaluations of trials `0..n-1`, each on the value set
`{name: sample_matrix[name][i]}` (that is what `evaluarEnsayo` computes) —
in particular `n` outcomes for `n` trials.  If some trial fails while all
earlier trials evaluate, the run raises that FIRST failing trial's
(wrapped) evaluation error and produces no `Resultados` at all — no
partial outcome sequence, no skipping. -/
theorem C7_todo_o_nada (sim : Simulador) (azar : Muestreador)
    (muestras : List (String × Option (List ℚ)))
    (hM : generarMuestras sim.modelo.vars sim.n_simulaciones azar = .ok muestras) :
    ((∀ i, i < sim.n_simulaciones → esOk (evaluarEnsayo sim.modelo muestras i) = true) →
      sim.ejecutar azar = .ok ⟨(List.range sim.n_simulaciones).map
        (fun i => valorO (evaluarEnsayo sim.modelo muestras i) Val.nan)⟩)
    ∧ (∀ j e, j < sim.n_simulaciones → evaluarEnsayo sim.modelo muestras j = .error e →
        (∀ i, i < j → esOk (evaluarEnsayo sim.modelo muestras i) = true) →
        sim.ejecutar azar = .error e) := by
  constructor
  · intro hok
    unfold Simulador.ejecutar
    rw [hM]
    dsimp only [Bind.bind, Except.bind]
    rw [ejecutarEnsayos_ok sim.modelo muestras sim.n_simulaciones hok]
    rfl
  · intro j e hj he hprev
    unfold Simulador.ejecutar
    rw [hM]
    dsimp only [Bind.bind, Except.bind]
    rw [ejecutarEnsayos_error sim.modelo muestras sim.n_simulaciones j e hj he hprev]

/-- C7 witness: the deterministic model `x*2` with `x ~ normal(5, 0)` and
two trials. -/
theorem C7_testigo :
    Simulador.ejecutar ⟨modeloDet, 2⟩ azarCinco = .ok ⟨(List.range 2).map
      (fun i => valorO (evaluarEnsayo modeloDet [("x", some [5, 5])] i) Val.nan)⟩ :=
  (C7_todo_o_nada ⟨modeloDet, 2⟩ azarCinco [("x", some [5, 5])] rfl).1 (by decide)

/-- C9: for a nonempty numeric outcome array, the statistics dictionary
holds exactly the nine entries — mean, median, standard deviation, min,
max and the percentiles at 2.5, 25, 75 and 97.5 — where the mean is the
sum over N, the standard deviation is the square root of the POPULATION
variance (deviations squared, summed, divided by N — not N−1), and each
percentile interpolates linearly between the order statistics at `⌊h⌋`
and `⌈h⌉` for the fractional rank `h = (N−1)·q/100`. -/
theorem C9_estadisticas (qs : List ℚ) (h : qs ≠ []) :
    Resultados.estadisticas ⟨qs.map Val.num⟩ = some
      { media := specMedia qs
        mediana := np_median qs
        desviacion := Real.sqrt (specVarianzaPoblacional qs)
        minimo := np_min qs
        maximo := np_max qs
        percentil_2_5 := specPercentilLineal qs (5/2)
        percentil_25 := specPercentilLineal qs 25
        percentil_75 := specPercentilLineal qs 75
        percentil_97_5 := specPercentilLineal qs (195/2) } := by
  have hvar : np_var qs = specVarianzaPoblacional qs := by
    unfold np_var np_mean specVarianzaPoblacional specMedia
    rw [List.length_map]
  unfold Resultados.estadisticas
  rw [asNums_map_num]
  refine congrArg some ?_
  dsimp only
  rw [← np_percentile_eq_spec qs (5/2), ← np_percentile_eq_spec qs 25,
    ← np_percentile_eq_spec qs 75, ← np_percentile_eq_spec qs (195/2)]
  rw [show np_std qs = Real.sqrt (specVarianzaPoblacional qs) by
    unfold np_std; rw [hvar]]
  rfl

/-- C9 witness. -/
theorem C9_testigo :
    Resultados.estadisticas ⟨[(1:ℚ), 2, 3].map Val.num⟩ = some
      { media := specMedia [1, 2, 3]
        mediana := np_median [1, 2, 3]
        desviacion := Real.sqrt (specVarianzaPoblacional [1, 2, 3])
        minimo := np_min [1, 2, 3]
        maximo := np_max [1, 2, 3]
        percentil_2_5 := specPercentilLineal [1, 2, 3] (5/2)
        percentil_25 := specPercentilLineal [1, 2, 3] 25
        percentil_75 := specPercentilLineal [1, 2, 3] 75
        percentil_97_5 := specPercentilLineal [1, 2, 3] (195/2) } :=
  C9_estadisticas [1, 2, 3] (by decide)

/-- C8 witness: the specification's own example — `"x + y"` with only `x`
declared fails naming `y`; with both declared it succeeds. -/
theorem C8_testigo :
    validarFormula "x + y" [("x", varX)] = .error (.valueError (mensajeNoDefinida "y"))
    ∧ validarFormula "x + y" [("x", varX), ("y", varY)] = .ok () := by
  constructor
  · rw [(C8_validacion_de_formula "x + y" [("x", varX)]).1]
    rfl
  · exact (C8_validacion_de_formula "x + y" [("x", varX), ("y", varY)]).2.1.mpr (by decide)

/-- C10 witness: an undefined-variable error never names `max`, and in a
namespace where `max` carries the value 5 the identifier `max` evaluates
to 5, not to the builtin. -/
theorem C10_testigo :
    (PyError.valueError (mensajeNoDefinida "z") ≠ .valueError (mensajeNoDefinida "max"))
    ∧ evalExpresion (espacioDeNombres [("max", .num 5)]) (.nombre "max") =
        .ok (.num 5, []) :=
  ⟨(C10_sombra_de_funciones "x + z" [("x", varX)] "max" (by decide)).1
      (.valueError (mensajeNoDefinida "z")) (by decide),
   (C10_sombra_de_funciones "x + z" [("x", varX)] "max" (by decide)).2
      [("max", .num 5)] 5 rfl⟩
